import Mathlib

/-! Verification development for two view components.

Shallow embedding of

* `src/components/views/login/LoginPageHeader.js` (namespace `LoginPageHeader`) and
* `src/components/views/settings/KeyBackupPanel.js` (namespace `KeyBackupPanel`).

JavaScript values that flow through the components are embedded as `JSVal`,
rendered markup as the tree type `Node`, React's `setState` as a merge of a
partial state (`Patch`) into the component state, and every `async` method as
a function of the settled answers of the client it awaits.
-/

/-! ## JavaScript values -/

/-- JavaScript values as far as the two components inspect them: the two
nullish values, booleans, integral numbers, strings, and objects (which the
components never look into, so they are kept as bare references). -/
inductive JSVal where
  | undefined
  | null
  | bool (b : Bool)
  | num (n : Int)
  | str (s : String)
  | obj (ref : Nat)
  deriving DecidableEq, Repr

namespace JSVal

/-- JavaScript truthiness (`if (v)`, `v && ..`, `v || ..`, `v ? .. : ..`). -/
def truthy : JSVal → Bool
  | undefined => false
  | null => false
  | bool b => b
  | num n => decide (n ≠ 0)
  | str s => decide (s ≠ "")
  | obj _ => true

/-- The operator `a === b` on the embedded values. -/
def strictEq (a b : JSVal) : Bool := decide (a = b)

/-- The operator `a || b`: the left operand when it is truthy, else the right one. -/
def or (a b : JSVal) : JSVal := if a.truthy then a else b

/-- The `TypeError` the engine throws when a property of `null` or `undefined`
is read; like every object it is truthy. -/
def typeError : JSVal := obj 0

end JSVal

/-! ## Rendered markup -/

/-- The methods of a `KeyBackupPanel` instance that are handed out as event
listeners or `onClick` handlers. -/
inductive Handler where
  | _onKeyBackupStatus
  | _onKeyBackupSessionsRemaining
  | _startNewBackup
  | _startNewBackupWithSecureSecretStorage
  | _deleteBackup
  | _restoreBackup
  deriving DecidableEq, Repr

/-- Value of a JSX attribute. -/
inductive Attr where
  | str (s : String)
  | num (n : Nat)
  | handler (h : Handler)
  deriving DecidableEq, Repr

/-- What a tag callback handed to `_t` puts inside the element it builds:
the substituted text `sub`, or a value fixed by the caller. -/
inductive WrapBody where
  | sub
  | value (v : JSVal)
  deriving DecidableEq, Repr

/-- A tag callback `sub => <tag className=..>{..}</tag>` handed to `_t`. -/
structure Wrap where
  tag : String
  className : Option String
  body : WrapBody
  deriving DecidableEq, Repr

/-- Rendered markup. `t key vars tags` stands for the call `_t(key, vars, tags)`
of the translation function, which is kept uninterpreted; `prop v name` stands
for the child expression `{v.name}` of a truthy value `v`. -/
inductive Node where
  | empty
  | text (s : String)
  | t (key : String) (vars : List (String × JSVal)) (tags : List (String × Wrap))
  | prop (v : JSVal) (name : String)
  | elem (tag : String) (attrs : List (String × Attr)) (children : List Node)

namespace Node

mutual
/-- Does the tree contain an `AccessibleButton` whose `onClick` is `h` and whose
only child is the translated caption `caption`? -/
def hasButton (h : Handler) (caption : String) : Node → Bool
  | empty => false
  | text _ => false
  | t _ _ _ => false
  | prop _ _ => false
  | elem tag attrs children =>
      (decide (tag = "AccessibleButton") && decide (("onClick", Attr.handler h) ∈ attrs)
        && (match children with
            | [t key _ _] => decide (key = caption)
            | _ => false))
      || hasButtonList h caption children
/-- The same search through a list of children. -/
def hasButtonList (h : Handler) (caption : String) : List Node → Bool
  | [] => false
  | n :: ns => hasButton h caption n || hasButtonList h caption ns
end

/-- The children of an element; other nodes have none. -/
def children : Node → List Node
  | elem _ _ cs => cs
  | _ => []

/-- The node reached by descending along child positions (0-based). -/
def childAt : Node → List Nat → Option Node
  | n, [] => some n
  | n, i :: rest =>
    match n.children.get? i with
    | some c => childAt c rest
    | none => none

end Node

/-! ## LoginPageHeader -/

namespace LoginPageHeader

/-- The branch of `render` taken for the Status theme. -/
def statusBranding : Node :=
  .elem "div" [] [
    .elem "div" [("className", .str "mx_LoginPageHeader_brand")] [
      .elem "img" [("src", .str "themes/status/img/logo.svg"), ("alt", .str "Status"),
                   ("width", .str "221"), ("height", .str "53")] []],
    .elem "div" [("className", .str "mx_LoginPageHeader_title")] [
      .elem "h1" [] [.text "Status Community Chat"],
      .elem "div" [("className", .str "mx_LoginPageHeader_subtitle")] [
        .text "A safer, decentralised communication platform ",
        .elem "a" [("href", .str "https://riot.im")] [.text "powered by Riot"]]]]

/-- The method `render`; `getTheme` is the value of `UserSettingsStore.getTheme()`. -/
def render (getTheme : JSVal) : Node :=
  if JSVal.strictEq getTheme (.str "status") then statusBranding
  else .elem "div" [] []

end LoginPageHeader

/-! ## KeyBackupPanel: data handed in by the client -/

namespace KeyBackupPanel

/-- A device object `sig.device`, by the answers of the accessors that
`render` calls on it. -/
structure Device where
  getDisplayName : JSVal
  deviceId : JSVal
  isVerified : Bool
  getFingerprint : JSVal
  deriving DecidableEq, Repr

/-- One entry of `backupSigStatus.sigs`; `device` is `none` when `sig.device`
is `null` or `undefined`. -/
structure Sig where
  device : Option Device
  valid : JSVal
  deviceId : JSVal
  deriving DecidableEq, Repr

/-- The values `state.backupSigStatus` takes: absent (`undefined`, as the
constructor leaves it), `null`, or a trust-information object; `sigs` is `none`
when that object has no `sigs` array. -/
inductive TrustVal where
  | undefined
  | null
  | info (sigs : Option (List Sig)) (trusted_locally : JSVal)
  deriving DecidableEq, Repr

/-- How an awaited promise settles. -/
inductive Settled (α : Type) where
  | resolved (v : α)
  | rejected (e : JSVal)

/-- The object `checkKeyBackup()` resolves with, as destructured on line 76. -/
structure CheckResult where
  backupInfo : JSVal
  trustInfo : TrustVal

/-- The client `MatrixClientPeg.get()` as the panel sees it: the way each call
answers. `checkKeyBackup` resolving with `none` is the promise resolving with
`null` or `undefined`. -/
structure Client where
  checkKeyBackup : Settled (Option CheckResult)
  getKeyBackupVersion : Settled JSVal
  isKeyBackupTrusted : JSVal → Settled TrustVal
  getKeyBackupEnabled : Bool
  getDeviceEd25519Key : JSVal

/-! ## KeyBackupPanel: component state -/

/-- The component state `this.state`. -/
structure State where
  loading : Bool
  error : JSVal
  backupInfo : JSVal
  backupSigStatus : TrustVal
  sessionsRemaining : Int
  deriving DecidableEq, Repr

/-- The partial state object passed to `setState`; `none` is a key left out. -/
structure Patch where
  loading : Option Bool := none
  error : Option JSVal := none
  backupInfo : Option JSVal := none
  backupSigStatus : Option TrustVal := none
  sessionsRemaining : Option Int := none
  deriving DecidableEq, Repr

/-- Shallow merge of a partial state into the state. -/
def State.merge (s : State) (p : Patch) : State where
  loading := p.loading.getD s.loading
  error := p.error.getD s.error
  backupInfo := p.backupInfo.getD s.backupInfo
  backupSigStatus := p.backupSigStatus.getD s.backupSigStatus
  sessionsRemaining := p.sessionsRemaining.getD s.sessionsRemaining

/-- A component instance: the flag `_unmounted`, `this.state`, and the record of
every `setState` call made so far (latest last). -/
structure Component where
  _unmounted : Bool
  state : State
  setStateCalls : List Patch
  deriving DecidableEq, Repr

/-- The call `this.setState(p)`: the call is recorded, and the patch is merged
into the state as React does for a mounted component. What React does with the
patch once the component is unmounted is not part of the source; the statements
about an unmounted component below speak of the recorded calls only. -/
def Component.setState (c : Component) (p : Patch) : Component :=
  { c with state := c.state.merge p, setStateCalls := c.setStateCalls ++ [p] }

/-- The constructor (lines 28-38); `backupSigStatus` is not among the keys of
the initial state, so reading it gives `undefined`. -/
def constructor : Component where
  _unmounted := false
  state :=
    { loading := true, error := .null, backupInfo := .null,
      backupSigStatus := .undefined, sessionsRemaining := 0 }
  setStateCalls := []

/-! ## KeyBackupPanel: listeners -/

/-- A listener registered on the client: a method of this panel, or some other
function. -/
inductive Listener where
  | own (h : Handler)
  | other (id : Nat)
  deriving DecidableEq, Repr

/-- The listener table of the client, an event emitter: the registered
(event, listener) pairs in registration order. -/
abbrev Listeners := List (String × Listener)

/-- A call made on `MatrixClientPeg.get()` while mounting or unmounting. -/
inductive Call where
  | checkKeyBackup
  | on (event : String) (listener : Listener)
  | removeListener (event : String) (listener : Listener)
  deriving DecidableEq, Repr

/-- Effect of one call on the listener table: `on` appends the pair and
`removeListener` takes out the most recently added instance of the pair, as
an event emitter does. -/
def Listeners.step (l : Listeners) : Call → Listeners
  | .checkKeyBackup => l
  | .on e f => l ++ [(e, f)]
  | .removeListener e f => (l.reverse.erase (e, f)).reverse

/-- Effect of a sequence of calls, first to last. -/
def Listeners.run (l : Listeners) (cs : List Call) : Listeners :=
  cs.foldl Listeners.step l

/-- The method `componentWillMount` (lines 40-48): the calls it makes on the
client, in order. `present` tells whether `MatrixClientPeg.get()` is non-null;
when it is null the read of `.on` on line 43 throws. -/
def componentWillMount (present : Bool) : Except JSVal (List Call) :=
  if present then
    .ok [.checkKeyBackup,
         .on "crypto.keyBackupStatus" (.own ._onKeyBackupStatus),
         .on "crypto.keyBackupSessionsRemaining" (.own ._onKeyBackupSessionsRemaining)]
  else .error JSVal.typeError

/-- The method `componentWillUnmount` (lines 50-60): the component afterwards
and the calls made on the client. -/
def componentWillUnmount (present : Bool) (c : Component) : Component × List Call :=
  ({ c with _unmounted := true },
   if present then
     [.removeListener "crypto.keyBackupStatus" (.own ._onKeyBackupStatus),
      .removeListener "crypto.keyBackupSessionsRemaining" (.own ._onKeyBackupSessionsRemaining)]
   else [])

/-! ## KeyBackupPanel: event handlers and status fetches -/

/-- The handler `_onKeyBackupSessionsRemaining` (lines 62-66). -/
def _onKeyBackupSessionsRemaining (sessionsRemaining : Int) (c : Component) : Component :=
  c.setState { sessionsRemaining := some sessionsRemaining }

/-- What the `try` block of `_checkKeyBackupStatus` gets from line 76: the
destructured pair, or the exception thrown (a `TypeError` when the client is
`null` or the promise resolves with a nullish value, else the rejection). -/
def checkKeyBackupAwait (peg : Option Client) : Except JSVal CheckResult :=
  match peg with
  | none => .error JSVal.typeError
  | some cli =>
    match cli.checkKeyBackup with
    | .rejected e => .error e
    | .resolved none => .error JSVal.typeError
    | .resolved (some r) => .ok r

/-- The method `_checkKeyBackupStatus` (lines 74-93), from the moment the
awaited call of line 76 settles; nothing is done to the component before.
`peg` is `MatrixClientPeg.get()` at the call, `c` the component at settling. -/
def _checkKeyBackupStatus (peg : Option Client) (c : Component) : Component :=
  match checkKeyBackupAwait peg with
  | .ok r =>
    c.setState
      { backupInfo := some r.backupInfo, backupSigStatus := some r.trustInfo,
        error := some .null, loading := some false }
  | .error e =>
    if c._unmounted then c
    else
      c.setState
        { error := some e, backupInfo := some .null,
          backupSigStatus := some .null, loading := some false }

/-- What the `try` block of `_loadBackupStatus` gets from lines 98-99. -/
def loadBackupStatusAwait (peg : Option Client) : Except JSVal (JSVal × TrustVal) :=
  match peg with
  | none => .error JSVal.typeError
  | some cli =>
    match cli.getKeyBackupVersion with
    | .rejected e => .error e
    | .resolved backupInfo =>
      match cli.isKeyBackupTrusted backupInfo with
      | .rejected e => .error e
      | .resolved backupSigStatus => .ok (backupInfo, backupSigStatus)

/-- Line 96 of `_loadBackupStatus`: what it does before the first `await`. -/
def _loadBackupStatus_begin (c : Component) : Component :=
  c.setState { loading := some true }

/-- Lines 97-116 of `_loadBackupStatus`: what it does once the awaited calls
have settled; `c` is the component at that moment. -/
def _loadBackupStatus_settle (peg : Option Client) (c : Component) : Component :=
  match loadBackupStatusAwait peg with
  | .ok (backupInfo, backupSigStatus) =>
    if c._unmounted then c
    else
      c.setState
        { error := some .null, backupInfo := some backupInfo,
          backupSigStatus := some backupSigStatus, loading := some false }
  | .error e =>
    if c._unmounted then c
    else
      c.setState
        { error := some e, backupInfo := some .null,
          backupSigStatus := some .null, loading := some false }

/-- The method `_loadBackupStatus` (lines 95-117) run without anything else
touching the component in between. -/
def _loadBackupStatus (peg : Option Client) (c : Component) : Component :=
  _loadBackupStatus_settle peg (_loadBackupStatus_begin c)

/-- The handler `_onKeyBackupStatus` (lines 68-72). -/
def _onKeyBackupStatus (peg : Option Client) (c : Component) : Component :=
  _loadBackupStatus peg c

/-- The `onFinished` callback of the delete dialog (lines 165-171), up to the
call of `deleteKeyBackupVersion`; when that call resolves `_loadBackupStatus`
is run. -/
def _deleteBackup_onFinished (proceed : Bool) (c : Component) : Component :=
  if !proceed then c
  else c.setState { loading := some true }

/-! ## KeyBackupPanel: render -/

/-- What `render` reads from outside the component: `MatrixClientPeg.get()`
(`none` when it is `null`) and `SettingsStore.isFeatureEnabled`. -/
structure Env where
  client : Option Client
  isFeatureEnabled : String → Bool

/-- The constant `encryptedMessageAreEncrypted` (lines 184-187). -/
def encryptedMessageAreEncrypted : Node :=
  .t ("Encrypted messages are secured with end-to-end encryption. " ++
      "Only you and the recipient(s) have the keys to read these messages.") [] []

/-- The tag callback `sub => <b>{sub}</b>`. -/
def bold : Wrap := { tag := "b", className := none, body := .sub }

/-- The element `<AccessibleButton kind=.. onClick=..>{caption}</AccessibleButton>`. -/
def accessibleButton (kind : String) (onClick : Handler) (caption : Node) : Node :=
  .elem "AccessibleButton" [("kind", .str kind), ("onClick", .handler onClick)] [caption]

/-- The error view (lines 190-194). -/
def errorView : Node :=
  .elem "div" [("className", .str "error")] [.t "Unable to load key backup status" [] []]

/-- The spinner (line 196). -/
def spinnerView : Node := .elem "Spinner" [] []

/-- The variable `clientBackupStatus` (lines 201-221). -/
def clientBackupStatus (getKeyBackupEnabled : Bool) : Node :=
  if getKeyBackupEnabled then
    .elem "div" [] [
      .elem "p" [] [encryptedMessageAreEncrypted],
      .elem "p" [] [.text "✅ ", .t "This device is backing up your keys. " [] []]]
  else
    .elem "div" [] [
      .elem "p" [] [encryptedMessageAreEncrypted],
      .elem "p" [] [.t ("This device is <b>not backing up your keys</b>, " ++
        "but you do have an existing backup you can restore from " ++
        "and add to going forward.") [] [("b", bold)]],
      .elem "p" [] [.t ("Connect this device to key backup before signing out to avoid " ++
        "losing any keys that may only be on this device.") [] []]]

/-- The variable `restoreButtonCaption` (lines 199, 220). -/
def restoreButtonCaption (getKeyBackupEnabled : Bool) : Node :=
  if getKeyBackupEnabled then .t "Restore from Backup" [] []
  else .t "Connect this device to Key Backup" [] []

/-- The variable `uploadStatus` (lines 223-236). -/
def uploadStatus (getKeyBackupEnabled : Bool) (sessionsRemaining : Int) : Node :=
  if !getKeyBackupEnabled then
    .text ""
  else if sessionsRemaining > 0 then
    .elem "div" [] [
      .t "Backing up %(sessionsRemaining)s keys..."
        [("sessionsRemaining", .num sessionsRemaining)] [],
      .text " ", .elem "br" [] []]
  else
    .elem "div" [] [.t "All keys backed up" [] [], .text " ", .elem "br" [] []]

/-- The constant `deviceName` (line 239). -/
def deviceName (sig : Sig) : JSVal :=
  match sig.device with
  | some d => JSVal.or d.getDisplayName d.deviceId
  | none => .null

/-- The tag callback `validity` (lines 240-243). -/
def validity (sig : Sig) : Wrap :=
  { tag := "span",
    className := some (if sig.valid.truthy then "mx_KeyBackupPanel_sigValid"
                       else "mx_KeyBackupPanel_sigInvalid"),
    body := .sub }

/-- The tag callback `verify` (lines 244-247). -/
def verify (sig : Sig) : Wrap :=
  { tag := "span",
    className := some (if (match sig.device with
                           | some d => d.isVerified
                           | none => false)
                       then "mx_KeyBackupPanel_deviceVerified"
                       else "mx_KeyBackupPanel_deviceNotVerified"),
    body := .sub }

/-- The tag callback `device` (line 248). -/
def device (sig : Sig) : Wrap :=
  { tag := "span", className := some "mx_KeyBackupPanel_deviceName",
    body := .value (deviceName sig) }

/-- The constant `fromThisDevice` (lines 249-252), as its truthiness. -/
def fromThisDevice (cli : Client) (sig : Sig) : Bool :=
  match sig.device with
  | some d => JSVal.strictEq d.getFingerprint cli.getDeviceEd25519Key
  | none => false

/-- The variable `sigStatus` (lines 253-294); `Node.empty` is the variable left
`undefined` when no branch of the chain is taken. -/
def sigStatus (cli : Client) (sig : Sig) : Node :=
  match sig.device with
  | none =>
    .t "Backup has a signature from <verify>unknown</verify> device with ID %(deviceId)s."
      [("deviceId", sig.deviceId)] [("verify", verify sig)]
  | some d =>
    if sig.valid.truthy && fromThisDevice cli sig then
      .t "Backup has a <validity>valid</validity> signature from this device"
        [] [("validity", validity sig)]
    else if !sig.valid.truthy && fromThisDevice cli sig then
      .t "Backup has an <validity>invalid</validity> signature from this device"
        [] [("validity", validity sig)]
    else if sig.valid.truthy && d.isVerified then
      .t ("Backup has a <validity>valid</validity> signature from " ++
          "<verify>verified</verify> device <device></device>")
        [] [("validity", validity sig), ("verify", verify sig), ("device", device sig)]
    else if sig.valid.truthy && !d.isVerified then
      .t ("Backup has a <validity>valid</validity> signature from " ++
          "<verify>unverified</verify> device <device></device>")
        [] [("validity", validity sig), ("verify", verify sig), ("device", device sig)]
    else if !sig.valid.truthy && d.isVerified then
      .t ("Backup has an <validity>invalid</validity> signature from " ++
          "<verify>verified</verify> device <device></device>")
        [] [("validity", validity sig), ("verify", verify sig), ("device", device sig)]
    else if !sig.valid.truthy && !d.isVerified then
      .t ("Backup has an <validity>invalid</validity> signature from " ++
          "<verify>unverified</verify> device <device></device>")
        [] [("validity", validity sig), ("verify", verify sig), ("device", device sig)]
    else .empty

/-- The callback of `sigs.map` (lines 238-299) applied from index `i` on:
one `<div key=i>{sigStatus}</div>` for each signature. -/
def sigRows (cli : Client) (i : Nat) : List Sig → List Node
  | [] => []
  | sig :: rest =>
    .elem "div" [("key", .num i)] [sigStatus cli sig] :: sigRows cli (i + 1) rest

/-- The variable `backupSigStatuses` (lines 238-302), as the children it
contributes to the enclosing `<div>`. -/
def backupSigStatuses (cli : Client) (sigs : List Sig) : List Node :=
  if sigs.length = 0 then [.t "Backup is not signed by any of your devices" [] []]
  else sigRows cli 0 sigs

/-- The variable `trustedLocally` (lines 304-307). -/
def trustedLocally (trusted_locally : JSVal) : Node :=
  if trusted_locally.truthy then
    .t "This backup is trusted because it has been restored on this device" [] []
  else .empty

/-- The backup-details view returned on lines 309-327. -/
def backupDetailsView (cli : Client) (s : State) (sigs : List Sig) (trusted_locally : JSVal) :
    Node :=
  .elem "div" [] [
    .elem "div" [] [clientBackupStatus cli.getKeyBackupEnabled],
    .elem "details" [] [
      .elem "summary" [] [.t "Advanced" [] []],
      .elem "div" [] [.t "Backup version: " [] [], .prop s.backupInfo "version"],
      .elem "div" [] [.t "Algorithm: " [] [], .prop s.backupInfo "algorithm"],
      uploadStatus cli.getKeyBackupEnabled s.sessionsRemaining,
      .elem "div" [] (backupSigStatuses cli sigs),
      .elem "div" [] [trustedLocally trusted_locally]],
    .elem "div" [("className", .str "mx_KeyBackupPanel_buttonRow")] [
      accessibleButton "primary" ._restoreBackup (restoreButtonCaption cli.getKeyBackupEnabled),
      .text "\u00a0\u00a0\u00a0",
      accessibleButton "danger" ._deleteBackup (.t "Delete Backup" [] [])]]

/-- The variable `secureSecretStorageKeyBackup` (lines 334-343). -/
def secureSecretStorageKeyBackup (isFeatureEnabled : String → Bool) : Node :=
  if isFeatureEnabled "feature_cross_signing" then
    .elem "div" [("className", .str "mx_KeyBackupPanel_buttonRow")] [
      accessibleButton "primary" ._startNewBackupWithSecureSecretStorage
        (.t "Start using Key Backup with Secure Secret Storage" [] [])]
  else .empty

/-- The view returned on lines 345-360, when there is no backup. -/
def noBackupView (isFeatureEnabled : String → Bool) : Node :=
  .elem "div" [] [
    .elem "div" [] [
      .elem "p" [] [.t "Your keys are <b>not being backed up from this device</b>."
        [] [("b", bold)]],
      .elem "p" [] [encryptedMessageAreEncrypted],
      .elem "p" [] [.t "Back up your keys before signing out to avoid losing them." [] []]],
    .elem "div" [("className", .str "mx_KeyBackupPanel_buttonRow")] [
      accessibleButton "primary" ._startNewBackup (.t "Start using Key Backup" [] [])],
    secureSecretStorageKeyBackup isFeatureEnabled]

/-- The method `render` (lines 181-362). An `error` result is the `TypeError`
thrown when `MatrixClientPeg.get()` is `null` on line 201, or when
`this.state.backupSigStatus.sigs.map` cannot be read on line 238. -/
def render (env : Env) (s : State) : Except JSVal Node :=
  if s.error.truthy then
    .ok errorView
  else if s.loading then
    .ok spinnerView
  else if s.backupInfo.truthy then
    match env.client with
    | none => .error JSVal.typeError
    | some cli =>
      match s.backupSigStatus with
      | .undefined => .error JSVal.typeError
      | .null => .error JSVal.typeError
      | .info none _ => .error JSVal.typeError
      | .info (some sigs) trusted_locally =>
        .ok (backupDetailsView cli s sigs trusted_locally)
  else
    .ok (noBackupView env.isFeatureEnabled)

/-- Whether `render` returns markup that contains the button with handler `h`
and caption `caption`; a `render` that throws shows nothing. -/
def renderHasButton (env : Env) (s : State) (h : Handler) (caption : String) : Bool :=
  match render env s with
  | .ok v => v.hasButton h caption
  | .error _ => false

/-! ## KeyBackupPanel: reachable component states -/

/-- The test `v != null`: neither `null` nor `undefined`. -/
def nonNull (v : JSVal) : Bool := decide (v ≠ .null) && decide (v ≠ .undefined)

/-- A trust-information object that carries a `sigs` array. -/
def TrustVal.hasSigs : TrustVal → Bool
  | .info (some _) _ => true
  | _ => false

/-- The assumption on the client: whenever it answers with non-null backup
info, the trust information that comes with it is an object with a `sigs`
array. This covers the pair resolved by `checkKeyBackup` and the answer of
`isKeyBackupTrusted` to what `getKeyBackupVersion` resolved with. -/
def Client.trustComplete (cli : Client) : Bool :=
  (match cli.checkKeyBackup with
   | .resolved (some r) => !nonNull r.backupInfo || r.trustInfo.hasSigs
   | _ => true) &&
  (match cli.getKeyBackupVersion with
   | .resolved b =>
     (match cli.isKeyBackupTrusted b with
      | .resolved t => !nonNull b || t.hasSigs
      | .rejected _ => true)
   | .rejected _ => true)

/-- The same assumption on `MatrixClientPeg.get()`, which may be `null`. -/
def pegTrustComplete : Option Client → Bool
  | none => true
  | some cli => cli.trustComplete

/-- The components reachable from the constructor by the settling of
`_checkKeyBackupStatus`, the two halves of `_loadBackupStatus` (which may be
interleaved with anything else), `_onKeyBackupSessionsRemaining`, the answer to
the delete confirmation, and unmounting, against clients that satisfy
`pegTrustComplete`. -/
inductive Reachable : Component → Prop where
  | init : Reachable constructor
  | checkSettled (peg : Option Client) (c : Component) :
      pegTrustComplete peg = true → Reachable c → Reachable (_checkKeyBackupStatus peg c)
  | loadBegun (c : Component) : Reachable c → Reachable (_loadBackupStatus_begin c)
  | loadSettled (peg : Option Client) (c : Component) :
      pegTrustComplete peg = true → Reachable c → Reachable (_loadBackupStatus_settle peg c)
  | sessionsRemaining (n : Int) (c : Component) :
      Reachable c → Reachable (_onKeyBackupSessionsRemaining n c)
  | deleteAnswered (proceed : Bool) (c : Component) :
      Reachable c → Reachable (_deleteBackup_onFinished proceed c)
  | unmounted (present : Bool) (c : Component) :
      Reachable c → Reachable (componentWillUnmount present c).1

/-! ## KeyBackupPanel: sample inputs -/

/-- A verified device other than this one. -/
def sampleDevice : Device :=
  { getDisplayName := .str "Phone", deviceId := .str "ABCDEF",
    isVerified := true, getFingerprint := .str "fingerprint-of-phone" }

/-- A valid signature made by `sampleDevice`. -/
def sampleSig : Sig :=
  { device := some sampleDevice, valid := .bool true, deviceId := .str "ABCDEF" }

/-- A signature by a device the client does not know. -/
def sampleUnknownSig : Sig :=
  { device := none, valid := .null, deviceId := .str "GHIJKL" }

/-- Trust information with one signature. -/
def sampleTrust : TrustVal := .info (some [sampleSig]) (.bool false)

/-- A client with key backup enabled that answers every status request with
backup info and trust information. -/
def sampleClient : Client :=
  { checkKeyBackup := .resolved (some { backupInfo := .obj 1, trustInfo := sampleTrust }),
    getKeyBackupVersion := .resolved (.obj 1),
    isKeyBackupTrusted := fun _ => .resolved sampleTrust,
    getKeyBackupEnabled := true,
    getDeviceEd25519Key := .str "fingerprint-of-this-device" }

/-- A client whose status requests are all rejected with the string 'offline'. -/
def failingClient : Client :=
  { checkKeyBackup := .rejected (.str "offline"),
    getKeyBackupVersion := .rejected (.str "offline"),
    isKeyBackupTrusted := fun _ => .rejected (.str "offline"),
    getKeyBackupEnabled := false,
    getDeviceEd25519Key := .str "fingerprint-of-this-device" }

/-- An environment with `sampleClient` and the cross-signing feature enabled. -/
def sampleEnv : Env :=
  { client := some sampleClient,
    isFeatureEnabled := fun name => decide (name = "feature_cross_signing") }

/-- A state in which a backup has been loaded and three sessions remain. -/
def sampleState : State :=
  { loading := false, error := .null, backupInfo := .obj 1,
    backupSigStatus := sampleTrust, sessionsRemaining := 3 }

/-- A state with backup info but without a signature status. -/
def stateWithoutSigStatus : State :=
  { loading := false, error := .null, backupInfo := .obj 1,
    backupSigStatus := .undefined, sessionsRemaining := 0 }

/-- A state in which nothing is loading and there is no backup. -/
def stateWithoutBackup : State :=
  { loading := false, error := .null, backupInfo := .null,
    backupSigStatus := .null, sessionsRemaining := 0 }

/-- A panel that has been constructed and then unmounted. -/
def unmountedPanel : Component := (componentWillUnmount true constructor).1

end KeyBackupPanel

/-! ## Theorems: LoginPageHeader -/

namespace LoginPageHeader

/-- C3: `render` returns the Status branding block exactly when
`UserSettingsStore.getTheme()` is the string 'status', and an empty `div` for
every other theme value; the branding block holds the logo image with alt text
'Status' and the heading 'Status Community Chat'. -/
theorem render_status_iff (getTheme : JSVal) :
    (render getTheme = statusBranding ↔ getTheme = .str "status") ∧
    (getTheme ≠ .str "status" → render getTheme = .elem "div" [] []) ∧
    statusBranding.childAt [0, 0] =
      some (.elem "img" [("src", .str "themes/status/img/logo.svg"), ("alt", .str "Status"),
                         ("width", .str "221"), ("height", .str "53")] []) ∧
    statusBranding.childAt [1, 0] = some (.elem "h1" [] [.text "Status Community Chat"]) := by
  refine ⟨?_, ?_, rfl, rfl⟩
  · by_cases h : getTheme = .str "status"
    · simp [render, JSVal.strictEq, h]
    · simp [render, JSVal.strictEq, h, statusBranding]
  · intro h
    simp [render, JSVal.strictEq, h]

/-- Witness for C3 at the theme value 'light'. -/
theorem render_status_iff_witness :
    render (.str "light") = .elem "div" [] [] :=
  (render_status_iff (.str "light")).2.1 (by decide)

end LoginPageHeader

/-! ## Theorems: KeyBackupPanel -/

namespace KeyBackupPanel

/-- In the details branch `render` succeeds only with the client present and a
`sigs` array in `backupSigStatus`, and then returns the backup-details view. -/
theorem render_details_inv (env : Env) (s : State) (v : Node)
    (hv : render env s = .ok v) (he : s.error.truthy = false) (hl : s.loading = false)
    (hb : s.backupInfo.truthy = true) :
    ∃ cli sigs tl, env.client = some cli ∧ s.backupSigStatus = .info (some sigs) tl ∧
      v = backupDetailsView cli s sigs tl := by
  unfold render at hv
  simp only [he, hl, hb, Bool.false_eq_true, if_false, if_true] at hv
  cases hc : env.client with
  | none => simp [hc] at hv
  | some cli =>
    simp only [hc] at hv
    cases hs : s.backupSigStatus with
    | undefined => simp [hs] at hv
    | null => simp [hs] at hv
    | info sigs tl =>
      cases sigs with
      | none => simp [hs] at hv
      | some sigs =>
        simp only [hs, Except.ok.injEq] at hv
        exact ⟨cli, sigs, tl, rfl, rfl, hv.symm⟩

/-- Row `i` of `sigRows` is the `div` with key `k + i` around the status of
signature `i`. -/
theorem sigRows_get? (cli : Client) (sigs : List Sig) (k i : Nat) :
    (sigRows cli k sigs).get? i =
      (sigs.get? i).map (fun sig => Node.elem "div" [("key", .num (k + i))] [sigStatus cli sig]) := by
  induction sigs generalizing k i with
  | nil => simp [sigRows]
  | cons sig rest ih =>
    cases i with
    | zero => simp [sigRows]
    | succ j =>
      simp only [sigRows, List.get?_cons_succ, ih]
      have : k + 1 + j = k + (j + 1) := by omega
      rw [this]

/-- C4: in the backup-details view returned by `render`, the upload status is
the empty string when key backup is not enabled, whatever `sessionsRemaining`
is; 'Backing up %(sessionsRemaining)s keys...' carrying that number when backup
is enabled and `sessionsRemaining > 0`; and 'All keys backed up' when backup is
enabled and `sessionsRemaining` is not greater than 0. -/
theorem render_uploadStatus (env : Env) (s : State) (v : Node)
    (hv : render env s = .ok v) (he : s.error.truthy = false) (hl : s.loading = false)
    (hb : s.backupInfo.truthy = true) :
    ∃ cli u, env.client = some cli ∧ v.childAt [1, 3] = some u ∧
      (cli.getKeyBackupEnabled = false → u = .text "") ∧
      (cli.getKeyBackupEnabled = true → s.sessionsRemaining > 0 →
        u = .elem "div" [] [
              .t "Backing up %(sessionsRemaining)s keys..."
                [("sessionsRemaining", .num s.sessionsRemaining)] [],
              .text " ", .elem "br" [] []]) ∧
      (cli.getKeyBackupEnabled = true → ¬ s.sessionsRemaining > 0 →
        u = .elem "div" [] [.t "All keys backed up" [] [], .text " ", .elem "br" [] []]) := by
  obtain ⟨cli, sigs, tl, hc, _, rfl⟩ := render_details_inv env s v hv he hl hb
  refine ⟨cli, uploadStatus cli.getKeyBackupEnabled s.sessionsRemaining, hc, rfl, ?_, ?_, ?_⟩
  · intro h; simp [uploadStatus, h]
  · intro h hn; simp [uploadStatus, h, hn]
  · intro h hn; simp [uploadStatus, h, hn]

/-- Witness for C4 at `sampleState`: backup enabled and three sessions remaining. -/
theorem render_uploadStatus_witness :
    ∃ cli u, sampleEnv.client = some cli ∧
      (backupDetailsView sampleClient sampleState [sampleSig] (.bool false)).childAt [1, 3]
        = some u ∧
      (cli.getKeyBackupEnabled = false → u = .text "") ∧
      (cli.getKeyBackupEnabled = true → sampleState.sessionsRemaining > 0 →
        u = .elem "div" [] [
              .t "Backing up %(sessionsRemaining)s keys..."
                [("sessionsRemaining", .num sampleState.sessionsRemaining)] [],
              .text " ", .elem "br" [] []]) ∧
      (cli.getKeyBackupEnabled = true → ¬ sampleState.sessionsRemaining > 0 →
        u = .elem "div" [] [.t "All keys backed up" [] [], .text " ", .elem "br" [] []]) :=
  render_uploadStatus sampleEnv sampleState
    (backupDetailsView sampleClient sampleState [sampleSig] (.bool false)) rfl rfl rfl rfl

/-- C7: the per-signature status message is chosen for every signature (the
variable `sigStatus` is never left undefined). Without a device it is the
'unknown device with ID' message whatever `sig.valid` is; with a device whose
fingerprint equals this device's Ed25519 key it is the 'from this device'
message, valid or invalid as `sig.valid` says, whatever the verification status;
otherwise it is the 'valid/invalid signature from verified/unverified device'
message whose words agree with `sig.valid` and `sig.device.isVerified()`. Row
`i` of the signature list in `render` is a `div` around that message. -/
theorem sigStatus_total (cli : Client) (sig : Sig) :
    sigStatus cli sig ≠ .empty ∧
    (sig.device = none →
      sigStatus cli sig =
        .t "Backup has a signature from <verify>unknown</verify> device with ID %(deviceId)s."
          [("deviceId", sig.deviceId)] [("verify", verify sig)]) ∧
    (∀ d, sig.device = some d → d.getFingerprint = cli.getDeviceEd25519Key →
      sigStatus cli sig =
        .t (if sig.valid.truthy then
              "Backup has a <validity>valid</validity> signature from this device"
            else "Backup has an <validity>invalid</validity> signature from this device")
          [] [("validity", validity sig)]) ∧
    (∀ d, sig.device = some d → d.getFingerprint ≠ cli.getDeviceEd25519Key →
      sigStatus cli sig =
        .t (match sig.valid.truthy, d.isVerified with
            | true, true =>
              "Backup has a <validity>valid</validity> signature from " ++
              "<verify>verified</verify> device <device></device>"
            | true, false =>
              "Backup has a <validity>valid</validity> signature from " ++
              "<verify>unverified</verify> device <device></device>"
            | false, true =>
              "Backup has an <validity>invalid</validity> signature from " ++
              "<verify>verified</verify> device <device></device>"
            | false, false =>
              "Backup has an <validity>invalid</validity> signature from " ++
              "<verify>unverified</verify> device <device></device>")
          [] [("validity", validity sig), ("verify", verify sig), ("device", device sig)]) ∧
    (∀ (sigs : List Sig) (i : Nat), sigs.get? i = some sig →
      (backupSigStatuses cli sigs).get? i =
        some (.elem "div" [("key", .num i)] [sigStatus cli sig])) := by
  refine ⟨?_, ?_, ?_, ?_, ?_⟩
  · unfold sigStatus
    cases hd : sig.device with
    | none => simp
    | some d =>
      cases hv : sig.valid.truthy <;> cases hf : fromThisDevice cli sig <;>
        cases hi : d.isVerified <;> simp [hi]
  · intro hd
    simp [sigStatus, hd]
  · intro d hd hf
    cases hv : sig.valid.truthy <;>
      simp [sigStatus, hd, fromThisDevice, JSVal.strictEq, hf, hv]
  · intro d hd hf
    cases hv : sig.valid.truthy <;> cases hi : d.isVerified <;>
      simp [sigStatus, hd, fromThisDevice, JSVal.strictEq, hf, hv, hi]
  · intro sigs i hi
    have hne : sigs.length ≠ 0 := by
      intro h0
      have : sigs = [] := List.length_eq_zero.mp h0
      simp [this] at hi
    simp only [backupSigStatuses, hne, if_false]
    rw [sigRows_get?, hi]
    simp

/-- Witness for C7 at a valid signature from a verified device other than
this one. -/
theorem sigStatus_total_witness :
    sigStatus sampleClient sampleSig =
      .t ("Backup has a <validity>valid</validity> signature from " ++
          "<verify>verified</verify> device <device></device>")
        [] [("validity", validity sampleSig), ("verify", verify sampleSig),
            ("device", device sampleSig)] :=
  (sigStatus_total sampleClient sampleSig).2.2.2.1 sampleDevice rfl (by decide)

/-- C2: for a mounted panel `_loadBackupStatus` maps the client's answer
directly into the state. If `getKeyBackupVersion` resolves with `b` and
`isKeyBackupTrusted(b)` with `t`, the final state has `error = null`,
`loading = false`, `backupInfo = b` and `backupSigStatus = t`; if either call
is rejected with `e`, it has `error = e`, `backupInfo = null`,
`backupSigStatus = null` and `loading = false`. In both cases
`sessionsRemaining` is what it was. -/
theorem loadBackupStatus_maps (cli : Client) (c : Component) (hm : c._unmounted = false) :
    (∀ b t, cli.getKeyBackupVersion = .resolved b → cli.isKeyBackupTrusted b = .resolved t →
      (_loadBackupStatus (some cli) c).state =
        { error := .null, loading := false, backupInfo := b, backupSigStatus := t,
          sessionsRemaining := c.state.sessionsRemaining }) ∧
    (∀ e, (cli.getKeyBackupVersion = .rejected e ∨
           ∃ b, cli.getKeyBackupVersion = .resolved b ∧ cli.isKeyBackupTrusted b = .rejected e) →
      (_loadBackupStatus (some cli) c).state =
        { error := e, loading := false, backupInfo := .null, backupSigStatus := .null,
          sessionsRemaining := c.state.sessionsRemaining }) := by
  constructor
  · intro b t hb ht
    simp [_loadBackupStatus, _loadBackupStatus_settle, _loadBackupStatus_begin,
      loadBackupStatusAwait, hb, ht, Component.setState, State.merge, hm]
  · intro e he
    rcases he with he | ⟨b, hb, he⟩
    · simp [_loadBackupStatus, _loadBackupStatus_settle, _loadBackupStatus_begin,
        loadBackupStatusAwait, he, Component.setState, State.merge, hm]
    · simp [_loadBackupStatus, _loadBackupStatus_settle, _loadBackupStatus_begin,
        loadBackupStatusAwait, hb, he, Component.setState, State.merge, hm]

/-- Witness for C2: a freshly constructed panel loading from `sampleClient`. -/
theorem loadBackupStatus_maps_witness :
    (_loadBackupStatus (some sampleClient) constructor).state =
      { error := .null, loading := false, backupInfo := .obj 1, backupSigStatus := sampleTrust,
        sessionsRemaining := constructor.state.sessionsRemaining } :=
  (loadBackupStatus_maps sampleClient constructor rfl).1 (.obj 1) sampleTrust rfl rfl

/-- C6: `componentWillMount` registers `_onKeyBackupStatus` on
'crypto.keyBackupStatus' and `_onKeyBackupSessionsRemaining` on
'crypto.keyBackupSessionsRemaining' and nothing else; `componentWillUnmount`,
with the client present, removes those two pairs and nothing else, so the
listener table after mounting and unmounting is the table before mounting; with
the client absent `componentWillUnmount` makes no call at all. -/
theorem mount_unmount_listeners (l : Listeners) (c : Component) :
    componentWillMount true =
      .ok [.checkKeyBackup,
           .on "crypto.keyBackupStatus" (.own ._onKeyBackupStatus),
           .on "crypto.keyBackupSessionsRemaining" (.own ._onKeyBackupSessionsRemaining)] ∧
    (componentWillUnmount true c).2 =
      [.removeListener "crypto.keyBackupStatus" (.own ._onKeyBackupStatus),
       .removeListener "crypto.keyBackupSessionsRemaining"
         (.own ._onKeyBackupSessionsRemaining)] ∧
    (∃ cs, componentWillMount true = .ok cs ∧
      (l.run cs).run (componentWillUnmount true c).2 = l) ∧
    (componentWillUnmount false c).2 = [] := by
  refine ⟨rfl, rfl, ⟨_, rfl, ?_⟩, rfl⟩
  simp [Listeners.run, Listeners.step, componentWillUnmount, List.erase_cons]

/-- A signature status message is plain translated text: it holds no button. -/
theorem hasButton_sigStatus (cli : Client) (sig : Sig) (h : Handler) (caption : String) :
    (sigStatus cli sig).hasButton h caption = false := by
  unfold sigStatus
  cases hd : sig.device with
  | none => simp [Node.hasButton]
  | some d =>
    cases hv : sig.valid.truthy <;> cases hf : fromThisDevice cli sig <;>
      cases hi : d.isVerified <;> simp [hi, Node.hasButton]

/-- The rows of the signature list hold no button. -/
theorem hasButtonList_sigRows (cli : Client) (sigs : List Sig) (k : Nat) (h : Handler)
    (caption : String) :
    Node.hasButtonList h caption (sigRows cli k sigs) = false := by
  induction sigs generalizing k with
  | nil => simp [sigRows, Node.hasButtonList]
  | cons sig rest ih =>
    simp [sigRows, Node.hasButtonList, Node.hasButton, hasButton_sigStatus, ih]

/-- The signature section of the details view holds no button. -/
theorem hasButtonList_backupSigStatuses (cli : Client) (sigs : List Sig) (h : Handler)
    (caption : String) :
    Node.hasButtonList h caption (backupSigStatuses cli sigs) = false := by
  unfold backupSigStatuses
  split
  · simp [Node.hasButtonList, Node.hasButton]
  · exact hasButtonList_sigRows cli sigs 0 h caption

/-- The backup-details view does not hold the secure-secret-storage button. -/
theorem backupDetailsView_no_secureSecretStorage (cli : Client) (s : State) (sigs : List Sig)
    (tl : JSVal) :
    (backupDetailsView cli s sigs tl).hasButton ._startNewBackupWithSecureSecretStorage
      "Start using Key Backup with Secure Secret Storage" = false := by
  cases he : cli.getKeyBackupEnabled <;> cases ht : tl.truthy <;>
    by_cases hn : s.sessionsRemaining > 0 <;>
    simp [backupDetailsView, Node.hasButton, Node.hasButtonList, accessibleButton,
      clientBackupStatus, uploadStatus, trustedLocally, restoreButtonCaption,
      encryptedMessageAreEncrypted, hasButtonList_backupSigStatuses, he, ht, hn]

/-- C5: the markup returned by `render` holds the 'Start using Key Backup with
Secure Secret Storage' button exactly when the 'not being backed up' view is
rendered (no error, not loading, no backup info) and
`SettingsStore.isFeatureEnabled('feature_cross_signing')` is true; the plain
'Start using Key Backup' button of that view is there whatever the flag is. -/
theorem secureSecretStorage_button_iff (env : Env) (s : State) :
    (renderHasButton env s ._startNewBackupWithSecureSecretStorage
        "Start using Key Backup with Secure Secret Storage" = true ↔
      (s.error.truthy = false ∧ s.loading = false ∧ s.backupInfo.truthy = false ∧
        env.isFeatureEnabled "feature_cross_signing" = true)) ∧
    (s.error.truthy = false → s.loading = false → s.backupInfo.truthy = false →
      render env s = .ok (noBackupView env.isFeatureEnabled) ∧
      renderHasButton env s ._startNewBackup "Start using Key Backup" = true) := by
  constructor
  · cases he : s.error.truthy
    · cases hl : s.loading
      · cases hb : s.backupInfo.truthy
        · cases hf : env.isFeatureEnabled "feature_cross_signing" <;>
            simp [renderHasButton, render, he, hl, hb, noBackupView,
              secureSecretStorageKeyBackup, hf, Node.hasButton, Node.hasButtonList,
              accessibleButton, encryptedMessageAreEncrypted]
        · simp only [renderHasButton, Bool.true_eq_false, and_false, false_and, iff_false,
            Bool.not_eq_true]
          cases hr : render env s with
          | error e => rfl
          | ok v =>
            obtain ⟨cli, sigs, tl, _, _, rfl⟩ := render_details_inv env s v hr he hl hb
            exact backupDetailsView_no_secureSecretStorage cli s sigs tl
      · simp [renderHasButton, render, he, hl, spinnerView, Node.hasButton,
          Node.hasButtonList]
    · simp [renderHasButton, render, he, errorView, Node.hasButton, Node.hasButtonList]
  · intro he hl hb
    cases hf : env.isFeatureEnabled "feature_cross_signing" <;>
      simp [renderHasButton, render, he, hl, hb, noBackupView,
        secureSecretStorageKeyBackup, hf, Node.hasButton, Node.hasButtonList,
        accessibleButton, encryptedMessageAreEncrypted]

/-- Witness for C5: no backup and the cross-signing feature enabled. -/
theorem secureSecretStorage_button_iff_witness :
    render sampleEnv stateWithoutBackup = .ok (noBackupView sampleEnv.isFeatureEnabled) ∧
    renderHasButton sampleEnv stateWithoutBackup ._startNewBackup "Start using Key Backup"
      = true :=
  (secureSecretStorage_button_iff sampleEnv stateWithoutBackup).2 rfl rfl rfl

/-- C1 fails as stated: with no error, nothing loading and backup info set,
but no signature status in the state, `render` throws, so none of the four
views is rendered. -/
theorem render_priority_counterexample :
    stateWithoutSigStatus.error.truthy = false ∧ stateWithoutSigStatus.loading = false ∧
    stateWithoutSigStatus.backupInfo.truthy = true ∧
    render sampleEnv stateWithoutSigStatus = .error JSVal.typeError ∧
    ¬ ∃ v, render sampleEnv stateWithoutSigStatus = .ok v := by
  refine ⟨rfl, rfl, rfl, rfl, ?_⟩
  rintro ⟨v, hv⟩
  have h : render sampleEnv stateWithoutSigStatus = .error JSVal.typeError := rfl
  rw [h] at hv
  cases hv

/-- C1, amended: `render` chooses its view by strict priority. A truthy `error`
gives the error view whatever `loading` and `backupInfo` are; otherwise a true
`loading` gives the spinner whatever `backupInfo` is; otherwise a truthy
`backupInfo` gives the backup-details view with the Restore and 'Delete
Backup' buttons, provided the client is present and `backupSigStatus` carries
a `sigs` array; otherwise (falsy `backupInfo`) it is the 'not being backed up'
view with the 'Start using Key Backup' button. Whatever `render` returns is one
of these four views, and the four are pairwise different. -/
theorem render_priority (env : Env) (s : State) :
    (s.error.truthy = true → render env s = .ok errorView) ∧
    (s.error.truthy = false → s.loading = true → render env s = .ok spinnerView) ∧
    (s.error.truthy = false → s.loading = false → s.backupInfo.truthy = true →
      ∀ cli sigs tl, env.client = some cli → s.backupSigStatus = .info (some sigs) tl →
        render env s = .ok (backupDetailsView cli s sigs tl) ∧
        renderHasButton env s ._restoreBackup
          (if cli.getKeyBackupEnabled then "Restore from Backup"
           else "Connect this device to Key Backup") = true ∧
        renderHasButton env s ._deleteBackup "Delete Backup" = true) ∧
    (s.error.truthy = false → s.loading = false → s.backupInfo.truthy = false →
      render env s = .ok (noBackupView env.isFeatureEnabled) ∧
      renderHasButton env s ._startNewBackup "Start using Key Backup" = true) ∧
    (∀ v, render env s = .ok v →
      v = errorView ∨ v = spinnerView ∨
      (∃ cli sigs tl, v = backupDetailsView cli s sigs tl) ∨
      v = noBackupView env.isFeatureEnabled) ∧
    (∀ (cli : Client) (s0 : State) (sigs : List Sig) (tl : JSVal) (f : String → Bool),
      errorView ≠ spinnerView ∧ errorView ≠ backupDetailsView cli s0 sigs tl ∧
      errorView ≠ noBackupView f ∧ spinnerView ≠ backupDetailsView cli s0 sigs tl ∧
      spinnerView ≠ noBackupView f ∧ backupDetailsView cli s0 sigs tl ≠ noBackupView f) := by
  refine ⟨?_, ?_, ?_, ?_, ?_, ?_⟩
  · intro he
    simp [render, he]
  · intro he hl
    simp [render, he, hl]
  · intro he hl hb cli sigs tl hc hs
    have hr : render env s = .ok (backupDetailsView cli s sigs tl) := by
      simp [render, he, hl, hb, hc, hs]
    refine ⟨hr, ?_, ?_⟩
    · cases hk : cli.getKeyBackupEnabled <;>
        simp [renderHasButton, hr, backupDetailsView, Node.hasButton, Node.hasButtonList,
          accessibleButton, restoreButtonCaption, hk]
    · simp [renderHasButton, hr, backupDetailsView, Node.hasButton, Node.hasButtonList,
        accessibleButton]
  · intro he hl hb
    have hr : render env s = .ok (noBackupView env.isFeatureEnabled) := by
      simp [render, he, hl, hb]
    refine ⟨hr, ?_⟩
    simp [renderHasButton, hr, noBackupView, Node.hasButton, Node.hasButtonList,
      accessibleButton]
  · intro v hv
    cases he : s.error.truthy
    · cases hl : s.loading
      · cases hb : s.backupInfo.truthy
        · simp [render, he, hl, hb] at hv
          exact Or.inr (Or.inr (Or.inr hv.symm))
        · obtain ⟨cli, sigs, tl, _, _, h⟩ := render_details_inv env s v hv he hl hb
          exact Or.inr (Or.inr (Or.inl ⟨cli, sigs, tl, h⟩))
      · simp [render, he, hl] at hv
        exact Or.inr (Or.inl hv.symm)
    · simp [render, he] at hv
      exact Or.inl hv.symm
  · intro cli s0 sigs tl f
    simp [errorView, spinnerView, backupDetailsView, noBackupView]

/-- Witness for C1, amended: `sampleState` is shown as the backup-details view. -/
theorem render_priority_witness :
    render sampleEnv sampleState =
        .ok (backupDetailsView sampleClient sampleState [sampleSig] (.bool false)) ∧
      renderHasButton sampleEnv sampleState ._restoreBackup
        (if sampleClient.getKeyBackupEnabled then "Restore from Backup"
         else "Connect this device to Key Backup") = true ∧
      renderHasButton sampleEnv sampleState ._deleteBackup "Delete Backup" = true :=
  (render_priority sampleEnv sampleState).2.2.1 rfl rfl rfl
    sampleClient [sampleSig] (.bool false) rfl rfl

/-- On an unmounted panel the settling of `_loadBackupStatus`, on success and
on failure, and the failure of `_checkKeyBackupStatus` leave the component as it
is: no `setState` is called. -/
theorem unmounted_settle_unchanged (peg : Option Client) (c : Component)
    (hu : c._unmounted = true) :
    _loadBackupStatus_settle peg c = c ∧
    (∀ e, checkKeyBackupAwait peg = .error e → _checkKeyBackupStatus peg c = c) := by
  constructor
  · unfold _loadBackupStatus_settle
    split <;> simp [hu]
  · intro e he
    simp [_checkKeyBackupStatus, he, hu]

/-- C8 at its failing input: the panel has been unmounted, and has called
`setState` not once, when `checkKeyBackup` resolves; `_checkKeyBackupStatus`
then still calls `setState`, with the patch of lines 77-82. -/
theorem checkKeyBackupStatus_setState_after_unmount :
    unmountedPanel._unmounted = true ∧
    unmountedPanel.setStateCalls = [] ∧
    (_checkKeyBackupStatus (some sampleClient) unmountedPanel).setStateCalls =
      [{ backupInfo := some (.obj 1), backupSigStatus := some sampleTrust,
         error := some .null, loading := some false }] :=
  ⟨rfl, rfl, rfl⟩

/-- A truthy value is neither `null` nor `undefined`. -/
theorem nonNull_of_truthy (v : JSVal) (h : v.truthy = true) : nonNull v = true := by
  cases v <;> simp_all [JSVal.truthy, nonNull]

/-- In every reachable component, truthy backup info comes with a signature
status that carries a `sigs` array. -/
theorem reachable_hasSigs (c : Component) (h : Reachable c) :
    c.state.backupInfo.truthy = true → c.state.backupSigStatus.hasSigs = true := by
  induction h with
  | init => intro hb; simp [constructor, JSVal.truthy] at hb
  | checkSettled peg c hp _ ih =>
    unfold _checkKeyBackupStatus
    cases hr : checkKeyBackupAwait peg with
    | error e =>
      by_cases hu : c._unmounted = true
      · simpa [hu] using ih
      · simp [hu, Component.setState, State.merge, JSVal.truthy]
    | ok r =>
      simp only [Component.setState, State.merge, Option.getD_some]
      intro hb
      have hn := nonNull_of_truthy _ hb
      cases peg with
      | none => simp [checkKeyBackupAwait] at hr
      | some cli =>
        simp only [pegTrustComplete, Client.trustComplete, Bool.and_eq_true] at hp
        have h1 := hp.1
        simp only [checkKeyBackupAwait] at hr
        cases hk : cli.checkKeyBackup with
        | rejected e => simp [hk] at hr
        | resolved o =>
          cases o with
          | none => simp [hk] at hr
          | some r0 =>
            simp only [hk, Except.ok.injEq] at hr
            subst hr
            simpa [hk, hn] using h1
  | loadBegun c _ ih =>
    simpa [_loadBackupStatus_begin, Component.setState, State.merge] using ih
  | loadSettled peg c hp _ ih =>
    unfold _loadBackupStatus_settle
    cases hr : loadBackupStatusAwait peg with
    | error e =>
      by_cases hu : c._unmounted = true
      · simpa [hu] using ih
      · simp [hu, Component.setState, State.merge, JSVal.truthy]
    | ok r =>
      obtain ⟨b, t⟩ := r
      by_cases hu : c._unmounted = true
      · simpa [hu] using ih
      · simp only [hu, Bool.false_eq_true, if_false, Component.setState, State.merge,
          Option.getD_some]
        intro hb
        have hn := nonNull_of_truthy _ hb
        cases peg with
        | none => simp [loadBackupStatusAwait] at hr
        | some cli =>
          simp only [pegTrustComplete, Client.trustComplete, Bool.and_eq_true] at hp
          have h2 := hp.2
          simp only [loadBackupStatusAwait] at hr
          cases hk : cli.getKeyBackupVersion with
          | rejected e => simp [hk] at hr
          | resolved b0 =>
            simp only [hk] at hr h2
            cases ht : cli.isKeyBackupTrusted b0 with
            | rejected e => simp [ht] at hr
            | resolved t0 =>
              simp only [ht, Except.ok.injEq, Prod.mk.injEq] at hr h2
              obtain ⟨rfl, rfl⟩ := hr
              simpa [hn] using h2
  | sessionsRemaining n c _ ih =>
    simpa [_onKeyBackupSessionsRemaining, Component.setState, State.merge] using ih
  | deleteAnswered proceed c _ ih =>
    cases proceed <;>
      simpa [_deleteBackup_onFinished, Component.setState, State.merge] using ih
  | unmounted present c _ ih =>
    simpa [componentWillUnmount] using ih

/-- C9: against a client that hands out trust information with a `sigs` array
whenever it hands out non-null backup info, every component reachable from the
constructor through `_checkKeyBackupStatus`, `_loadBackupStatus`,
`_onKeyBackupSessionsRemaining` and the delete confirmation satisfies: if
`error` is not set, `loading` is false and `backupInfo` is set, then
`backupSigStatus` is set and carries `sigs`, so that `render` (with the client
present) reads `this.state.backupSigStatus.sigs` without failing and returns
the backup-details view. -/
theorem render_reads_sigStatus (c : Component) (h : Reachable c)
    (he : c.state.error.truthy = false) (hl : c.state.loading = false)
    (hb : c.state.backupInfo.truthy = true) :
    c.state.backupSigStatus.hasSigs = true ∧
    ∀ env cli, env.client = some cli →
      ∃ sigs tl, c.state.backupSigStatus = .info (some sigs) tl ∧
        render env c.state = .ok (backupDetailsView cli c.state sigs tl) := by
  have hs := reachable_hasSigs c h hb
  refine ⟨hs, ?_⟩
  intro env cli hc
  cases hq : c.state.backupSigStatus with
  | undefined => simp [hq, TrustVal.hasSigs] at hs
  | null => simp [hq, TrustVal.hasSigs] at hs
  | info sigs tl =>
    cases sigs with
    | none => simp [hq, TrustVal.hasSigs] at hs
    | some sigs =>
      exact ⟨sigs, tl, rfl, by simp [render, he, hl, hb, hc, hq]⟩

/-- Witness for C9: the panel after `_checkKeyBackupStatus` has settled against
`sampleClient`. -/
theorem render_reads_sigStatus_witness :
    (_checkKeyBackupStatus (some sampleClient) constructor).state.backupSigStatus.hasSigs
      = true ∧
    ∀ env cli, env.client = some cli →
      ∃ sigs tl,
        (_checkKeyBackupStatus (some sampleClient) constructor).state.backupSigStatus
          = .info (some sigs) tl ∧
        render env (_checkKeyBackupStatus (some sampleClient) constructor).state =
          .ok (backupDetailsView cli
            (_checkKeyBackupStatus (some sampleClient) constructor).state sigs tl) :=
  render_reads_sigStatus (_checkKeyBackupStatus (some sampleClient) constructor)
    (Reachable.checkSettled (some sampleClient) constructor rfl Reachable.init) rfl rfl rfl

end KeyBackupPanel
